import Mathlib

/-!
Verification of `tr.aggregate.ds.py` (temporal aggregation of a space-time
raster dataset along the intervals of a sampler dataset).

The script's `main()` is embedded as a pure function from a configuration
and an initial catalog to the list of observable events it performs
(dataset selections, deletions, insertions, aggregation requests, the
final extent update, and fatal error messages).  `grass.fatal` aborts the
process, so a fatal event is always the last event of a trace.

Timestamps are modelled as integers (both absolute and relative GRASS
times are totally ordered; only comparisons matter here).  An absent end
time (instantaneous map) is `Option.none`.
-/

/-- One registered map of a space-time dataset: identifier, start time,
optional end time (absent for instantaneous maps). -/
structure MapRow where
  id : String
  start_time : Int
  end_time : Option Int
  deriving DecidableEq, Repr

/-- The three dataset kinds the script can touch: `strds` (raster),
`str3ds` (raster3d), `stvds` (vector). -/
inductive DatasetKind where
  | raster
  | raster3d
  | vector
  deriving DecidableEq, Repr

/-- A space-time dataset as stored in the temporal database: identifier,
kind, temporal type ("absolute" or "relative"), semantic type, title,
description, the map-time mode of its registered maps ("interval" when
every map carries an end time), and its registered maps. -/
structure SpaceTimeDataset where
  id : String
  kind : DatasetKind
  temporal_type : String
  semantic_type : String
  title : String
  description : String
  map_time : String
  maps : List MapRow
  deriving DecidableEq, Repr

/-- The module options and flags of `tr.aggregate.ds`, together with the
current mapset and the GRASS overwrite flag. -/
structure Config where
  input : String
  output : String
  sample : String
  base : String
  register_null : Bool
  method : String
  type : String
  sampling : List String
  mapset : String
  overwrite : Bool
  deriving DecidableEq, Repr

/-- Observable actions of a run of `main()`, in program order. -/
inductive Event where
  | selectDs (id : String) (kind : DatasetKind)
  | deleteSeries (id : String)
  | insertSeries (d : SpaceTimeDataset)
  | aggregate (outId : String) (names : List String) (base : String)
      (start : Int) (stop : Option Int) (idx : Nat) (method : String)
      (registerNull : Bool)
  | updateFromRegisteredMaps (id : String)
  | fatal (msg : String)
  deriving DecidableEq, Repr

/-- `id = input if "@" in input else input + "@" + mapset` (lines 115-118,
128-131, 155-158 of the script). -/
def resolveId (name mapset : String) : String :=
  if name.data.contains '@' then name else name ++ "@" ++ mapset

/-- Catalog lookup: the dataset registered under an id in the table of the
given kind, mirroring `is_in_db` plus `select`. -/
def findDataset (cat : List SpaceTimeDataset) (i : String) (k : DatasetKind) :
    Option SpaceTimeDataset :=
  cat.find? (fun d => d.id == i && d.kind == k)

/-- `tgis.dataset_factory(type, id)`: which dataset kind the `type` option
selects for the sampler (lines 133; `strds`, `str3ds`, `stvds`). -/
def dataset_factory (type : String) : DatasetKind :=
  if type == "strds" then DatasetKind.raster
  else if type == "str3ds" then DatasetKind.raster3d
  else DatasetKind.vector

/-- Error message of lines 124 and 137 of the script. -/
def notFoundMsg (x : String) : String :=
  "Dataset <" ++ x ++ "> not found in temporal database"

/-- Error message of line 143. -/
def mismatchMsg : String :=
  "Input and aggregation dataset must have the same temporal type"

/-- Error message of line 153. -/
def intervalMsg : String :=
  "All registered maps of the aggregation dataset must have time intervals"

/-- Error message of line 168. -/
def alreadyMsg (x : String) : String :=
  "Space time raster dataset <" ++ x ++
    "> is already in database, use overwrite flag to overwrite"

/-- Error message of line 178. -/
def emptyMsg (x : String) : String :=
  "Aggregation dataset <" ++ x ++ "> is empty"

/-- Ordering of map rows by start time, used to sort registered maps. -/
def rowLE (a b : MapRow) : Prop := a.start_time ≤ b.start_time

instance : DecidableRel rowLE := fun a b => Int.decLe a.start_time b.start_time

instance : IsTotal MapRow rowLE := ⟨fun a b => Int.le_total a.start_time b.start_time⟩

instance : IsTrans MapRow rowLE := ⟨fun _ _ _ h1 h2 => le_trans h1 h2⟩

/-- Modelled from the spec: `get_registered_maps(..., "start_time", dbif)`
and the matcher's result ordering are provided by the external
`grass.temporal` library, not by this repository's sources.  Section 4.2
of the spec: the rows are "ordered by ascending start time (ties broken by
the catalog's native ordering, stable)". -/
def sortByStart (l : List MapRow) : List MapRow :=
  List.insertionSort rowLE l

/-- Modelled from the spec: the temporal relation predicates of
`tgis.collect_map_names` are external to this repository.  Section 4.3 of
the spec, where `[a,b)` is the source map's span (`b` may be absent) and
`[s,e)` the sampler interval: `equal` is `a == s and b == e`; `start` is
`a == s`; `during` is `a >= s and b present and b <= e`; `overlap` is
`a < e and (b absent or b > s)`; `contain` is `a <= s and b present and
b >= e`. -/
def satisfiesRelation (rel : String) (a : Int) (b : Option Int)
    (s : Int) (e : Option Int) : Bool :=
  if rel == "equal" then a == s && b == e
  else if rel == "start" then a == s
  else if rel == "during" then
    decide (s ≤ a) &&
      (match b, e with
       | some bb, some ee => decide (bb ≤ ee)
       | _, _ => false)
  else if rel == "overlap" then
    (match e with
     | some ee => decide (a < ee)
     | none => false) &&
      (match b with
       | none => true
       | some bb => decide (s < bb))
  else if rel == "contain" then
    decide (a ≤ s) &&
      (match b, e with
       | some bb, some ee => decide (ee ≤ bb)
       | _, _ => false)
  else false

/-- Modelled from the spec: a source map is included if it satisfies ANY
selected relation against the interval (logical OR across relations,
section 4.3). -/
def mapMatches (m : MapRow) (s : Int) (e : Option Int)
    (sampling : List String) : Bool :=
  sampling.any (fun rel => satisfiesRelation rel m.start_time m.end_time s e)

/-- Modelled from the spec: `tgis.collect_map_names(sp, dbif, start, end,
sampling)` (line 186 of the script) lives in the external `grass.temporal`
library.  Section 4.3: return the identifiers of the source maps matching
the interval under any selected relation, deduplicated and ordered by
ascending start time; an empty result is valid. -/
def collect_map_names (sp : SpaceTimeDataset) (start : Int)
    (stop : Option Int) (sampling : List String) : List String :=
  (((sortByStart (sp.maps.filter
      (fun m => mapMatches m start stop sampling))).map
        (fun m => m.id))).dedup

/-- The events of one iteration of the scheduler loop (lines 181-189):
collect the matching source maps; if any, one aggregation request tagged
with the interval bounds and the 1-based counter, otherwise nothing. -/
def stepEvents (cfg : Config) (sp : SpaceTimeDataset) (out_id : String)
    (i : Nat) (row : MapRow) : List Event :=
  let names := collect_map_names sp row.start_time row.end_time cfg.sampling
  if names = [] then []
  else [Event.aggregate out_id names cfg.base row.start_time row.end_time i
    cfg.method cfg.register_null]

/-- The scheduler loop of lines 180-189: `count` starts at the given value
(0 in `main`), is incremented at the top of every iteration, and each
iteration contributes the events of `stepEvents` at the incremented
counter.  Returns the accumulated events and the final counter. -/
def runLoop (cfg : Config) (sp : SpaceTimeDataset) (out_id : String) :
    Nat → List MapRow → List Event × Nat
  | c, [] => ([], c)
  | c, row :: rest =>
    (stepEvents cfg sp out_id (c + 1) row ++
        (runLoop cfg sp out_id (c + 1) rest).1,
      (runLoop cfg sp out_id (c + 1) rest).2)

/-- The fresh output dataset of lines 161-171: a new space-time raster
dataset under the output id whose temporal type, semantic type, title and
description are copied from the source series (`get_initial_values` /
`set_initial_values`), with no registered maps yet. -/
def freshOutput (sp : SpaceTimeDataset) (out_id : String) : SpaceTimeDataset :=
  { id := out_id
    kind := DatasetKind.raster
    temporal_type := sp.temporal_type
    semantic_type := sp.semantic_type
    title := sp.title
    description := sp.description
    map_time := ""
    maps := [] }

/-- Lines 170-195 of the script, after the output id has been prepared:
insert the fresh output series, fetch the sampler rows ordered by start
time, fail with the empty-dataset message (formatted with the INPUT id,
line 178) when there are none, otherwise run the scheduler loop and update
the output's extent and metadata from its registered maps. -/
def runInsert (cfg : Config) (sp sampler_sp : SpaceTimeDataset)
    (out_id : String) : List Event :=
  Event.insertSeries (freshOutput sp out_id) ::
    (let rows := sortByStart sampler_sp.maps
     if rows = [] then
       [Event.fatal (emptyMsg (resolveId cfg.input cfg.mapset))]
     else
       (runLoop cfg sp out_id 0 rows).1 ++
         [Event.updateFromRegisteredMaps out_id])

/-- Lines 141-172 of the script, after both datasets have been selected:
temporal-type check, interval check, then the overwrite-or-fail handling
of a pre-existing output dataset. -/
def runChecked (cfg : Config) (cat : List SpaceTimeDataset)
    (sp sampler_sp : SpaceTimeDataset) : List Event :=
  if sampler_sp.temporal_type ≠ sp.temporal_type then
    [Event.fatal mismatchMsg]
  else if sampler_sp.map_time ≠ "interval" then
    [Event.fatal intervalMsg]
  else
    let out_id := resolveId cfg.output cfg.mapset
    if (findDataset cat out_id DatasetKind.raster).isSome then
      if cfg.overwrite then
        Event.deleteSeries out_id :: runInsert cfg sp sampler_sp out_id
      else
        [Event.fatal (alreadyMsg out_id)]
    else
      runInsert cfg sp sampler_sp out_id

/-- `main()` of `tr.aggregate.ds.py` as an event trace.  The input dataset
is always looked up as a space-time raster dataset (line 120), the sampler
through `dataset_factory` with the `type` option (line 133); the not-found
message for the sampler is formatted with the input's id (line 137, the
script reuses `id`). -/
def runMain (cfg : Config) (cat : List SpaceTimeDataset) : List Event :=
  let id := resolveId cfg.input cfg.mapset
  match findDataset cat id DatasetKind.raster with
  | none => [Event.fatal (notFoundMsg id)]
  | some sp =>
    let sampler_id := resolveId cfg.sample cfg.mapset
    match findDataset cat sampler_id (dataset_factory cfg.type) with
    | none => [Event.selectDs id DatasetKind.raster,
        Event.fatal (notFoundMsg id)]
    | some sampler_sp =>
      Event.selectDs id DatasetKind.raster ::
        Event.selectDs sampler_id (dataset_factory cfg.type) ::
          runChecked cfg cat sp sampler_sp

/-- `true` exactly on aggregation-request events. -/
def isAggregate : Event → Bool
  | Event.aggregate _ _ _ _ _ _ _ _ => true
  | _ => false

/-- `true` exactly on extent-update (finalize) events. -/
def isUpdate : Event → Bool
  | Event.updateFromRegisteredMaps _ => true
  | _ => false

/-! ### Concrete fixtures used to witness the theorems below -/

/-- A source map spanning the half-open interval [10,20). -/
def srcMapA : MapRow := { id := "a", start_time := 10, end_time := some 20 }

/-- A source space-time raster dataset with one map [10,20). -/
def srcSp : SpaceTimeDataset :=
  { id := "src@m"
    kind := DatasetKind.raster
    temporal_type := "absolute"
    semantic_type := "mean"
    title := "t"
    description := "d"
    map_time := "interval"
    maps := [srcMapA] }

/-- A sampler map spanning [10,20). -/
def samRow : MapRow := { id := "s", start_time := 10, end_time := some 20 }

/-- A sampler dataset with one interval [10,20). -/
def samSp : SpaceTimeDataset :=
  { id := "sam@m"
    kind := DatasetKind.raster
    temporal_type := "absolute"
    semantic_type := "mean"
    title := "t2"
    description := "d2"
    map_time := "interval"
    maps := [samRow] }

/-- A sampler dataset with zero registered maps. -/
def samEmptySp : SpaceTimeDataset :=
  { samSp with maps := [] }

/-- A sampler dataset of relative temporal type (source is absolute). -/
def samRelSp : SpaceTimeDataset :=
  { samSp with temporal_type := "relative" }

/-- A pre-existing dataset occupying the output id. -/
def outOldSp : SpaceTimeDataset :=
  { id := "out@m"
    kind := DatasetKind.raster
    temporal_type := "absolute"
    semantic_type := "mean"
    title := "old"
    description := "old"
    map_time := "interval"
    maps := [] }

/-- A sampler interval far away from every source map. -/
def rowFar : MapRow := { id := "s2", start_time := 100, end_time := some 110 }

/-- The standard run configuration of the fixtures: mapset `m`, no
overwrite, `type=strds`, `sampling=start`, `method=average`. -/
def cfg0 : Config :=
  { input := "src"
    output := "out"
    sample := "sam"
    base := "b"
    register_null := false
    method := "average"
    type := "strds"
    sampling := ["start"]
    mapset := "m"
    overwrite := false }

/-- Catalog with source and one-interval sampler. -/
def catMain : List SpaceTimeDataset := [srcSp, samSp]

/-- Catalog whose sampler has zero registered maps. -/
def catEmptySam : List SpaceTimeDataset := [srcSp, samEmptySp]

/-- Catalog whose sampler has a different temporal type. -/
def catMismatch : List SpaceTimeDataset := [srcSp, samRelSp]

/-- Catalog without the sampler dataset. -/
def catNoSam : List SpaceTimeDataset := [srcSp]

/-- Catalog where a dataset already occupies the output id. -/
def catWithOut : List SpaceTimeDataset := [srcSp, samSp, outOldSp]

/-! ### Helper lemmas -/

/-- The last element of a list extended by one element. -/
theorem getLast_append_single {α : Type} (l : List α) (a : α) :
    (l ++ [a]).getLast? = some a :=
  List.getLast?_concat l

/-- Closed form of the scheduler loop: the i-th interval (1-based, counted
from the initial counter) contributes `stepEvents` at index `c + i`, and
the final counter is the initial counter plus the number of intervals. -/
theorem runLoop_enumFrom (cfg : Config) (sp : SpaceTimeDataset)
    (out_id : String) (c : Nat) (rows : List MapRow) :
    runLoop cfg sp out_id c rows =
      (((List.enumFrom (c + 1) rows).map
          (fun p => stepEvents cfg sp out_id p.1 p.2)).flatten,
        c + rows.length) := by
  induction rows generalizing c with
  | nil => simp [runLoop, List.enumFrom]
  | cons row rest ih =>
    have harith : c + 1 + rest.length = c + (rest.length + 1) := by omega
    simp only [runLoop, List.enumFrom, List.map_cons, List.flatten_cons,
      List.length_cons, ih (c + 1), harith]

/-- Every event of one loop iteration is an aggregation request. -/
theorem mem_stepEvents_isAggregate (cfg : Config) (sp : SpaceTimeDataset)
    (out_id : String) (i : Nat) (row : MapRow) (e : Event)
    (h : e ∈ stepEvents cfg sp out_id i row) : isAggregate e = true := by
  by_cases hc : collect_map_names sp row.start_time row.end_time cfg.sampling = []
  · simp [stepEvents, hc] at h
  · simp [stepEvents, hc] at h
    subst h
    rfl

/-- Every event of the scheduler loop is an aggregation request. -/
theorem mem_runLoop_isAggregate (cfg : Config) (sp : SpaceTimeDataset)
    (out_id : String) (c : Nat) (rows : List MapRow) (e : Event)
    (h : e ∈ (runLoop cfg sp out_id c rows).1) : isAggregate e = true := by
  induction rows generalizing c with
  | nil => simp [runLoop] at h
  | cons row rest ih =>
    simp only [runLoop, List.mem_append] at h
    rcases h with h | h
    · exact mem_stepEvents_isAggregate cfg sp out_id (c + 1) row e h
    · exact ih (c + 1) h

/-- When both datasets are found, `main` selects them and proceeds to the
compatibility checks. -/
theorem runMain_found (cfg : Config) (cat : List SpaceTimeDataset)
    (sp sampler_sp : SpaceTimeDataset)
    (hin : findDataset cat (resolveId cfg.input cfg.mapset)
      DatasetKind.raster = some sp)
    (hsam : findDataset cat (resolveId cfg.sample cfg.mapset)
      (dataset_factory cfg.type) = some sampler_sp) :
    runMain cfg cat =
      Event.selectDs (resolveId cfg.input cfg.mapset) DatasetKind.raster ::
        Event.selectDs (resolveId cfg.sample cfg.mapset)
          (dataset_factory cfg.type) ::
          runChecked cfg cat sp sampler_sp := by
  simp only [runMain]
  rw [hin, hsam]

/-- When the sampler dataset is absent, `main` aborts with the not-found
message formatted with the INPUT id (script line 137). -/
theorem runMain_no_sampler (cfg : Config) (cat : List SpaceTimeDataset)
    (sp : SpaceTimeDataset)
    (hin : findDataset cat (resolveId cfg.input cfg.mapset)
      DatasetKind.raster = some sp)
    (hsam : findDataset cat (resolveId cfg.sample cfg.mapset)
      (dataset_factory cfg.type) = none) :
    runMain cfg cat =
      [Event.selectDs (resolveId cfg.input cfg.mapset) DatasetKind.raster,
       Event.fatal (notFoundMsg (resolveId cfg.input cfg.mapset))] := by
  simp only [runMain]
  rw [hin, hsam]

/-- Temporal-type mismatch branch of the checks (script line 141). -/
theorem runChecked_mismatch (cfg : Config) (cat : List SpaceTimeDataset)
    (sp sampler_sp : SpaceTimeDataset)
    (hne : sampler_sp.temporal_type ≠ sp.temporal_type) :
    runChecked cfg cat sp sampler_sp = [Event.fatal mismatchMsg] := by
  simp [runChecked, hne]

/-- Non-interval map-time branch of the checks (script line 151). -/
theorem runChecked_noninterval (cfg : Config) (cat : List SpaceTimeDataset)
    (sp sampler_sp : SpaceTimeDataset)
    (hte : sampler_sp.temporal_type = sp.temporal_type)
    (hmt : sampler_sp.map_time ≠ "interval") :
    runChecked cfg cat sp sampler_sp = [Event.fatal intervalMsg] := by
  simp [runChecked, hte, hmt]

/-- Checks pass and the output id is free: continue with the insertion. -/
theorem runChecked_free (cfg : Config) (cat : List SpaceTimeDataset)
    (sp sampler_sp : SpaceTimeDataset)
    (hte : sampler_sp.temporal_type = sp.temporal_type)
    (hmt : sampler_sp.map_time = "interval")
    (hout : findDataset cat (resolveId cfg.output cfg.mapset)
      DatasetKind.raster = none) :
    runChecked cfg cat sp sampler_sp =
      runInsert cfg sp sampler_sp (resolveId cfg.output cfg.mapset) := by
  simp [runChecked, hte, hmt, hout]

/-- Checks pass, the output id is taken and overwrite is on: delete the
old dataset and continue with the insertion (script lines 163-165). -/
theorem runChecked_overwrite (cfg : Config) (cat : List SpaceTimeDataset)
    (sp sampler_sp old : SpaceTimeDataset)
    (hte : sampler_sp.temporal_type = sp.temporal_type)
    (hmt : sampler_sp.map_time = "interval")
    (hout : findDataset cat (resolveId cfg.output cfg.mapset)
      DatasetKind.raster = some old)
    (hov : cfg.overwrite = true) :
    runChecked cfg cat sp sampler_sp =
      Event.deleteSeries (resolveId cfg.output cfg.mapset) ::
        runInsert cfg sp sampler_sp (resolveId cfg.output cfg.mapset) := by
  simp [runChecked, hte, hmt, hout, hov]

/-- Checks pass, the output id is taken and overwrite is off: abort with
the already-exists message (script lines 166-168). -/
theorem runChecked_already (cfg : Config) (cat : List SpaceTimeDataset)
    (sp sampler_sp old : SpaceTimeDataset)
    (hte : sampler_sp.temporal_type = sp.temporal_type)
    (hmt : sampler_sp.map_time = "interval")
    (hout : findDataset cat (resolveId cfg.output cfg.mapset)
      DatasetKind.raster = some old)
    (hov : cfg.overwrite = false) :
    runChecked cfg cat sp sampler_sp =
      [Event.fatal (alreadyMsg (resolveId cfg.output cfg.mapset))] := by
  simp [runChecked, hte, hmt, hout, hov]

/-- With an empty sampler, the fresh output series is inserted and only
then does the run abort with the empty message formatted with the input
id (script lines 172-178). -/
theorem runInsert_empty (cfg : Config) (sp sampler_sp : SpaceTimeDataset)
    (out_id : String) (hmaps : sampler_sp.maps = []) :
    runInsert cfg sp sampler_sp out_id =
      [Event.insertSeries (freshOutput sp out_id),
       Event.fatal (emptyMsg (resolveId cfg.input cfg.mapset))] := by
  simp [runInsert, hmaps, sortByStart, List.insertionSort]

/-- With a non-empty sampler, the run inserts the fresh output, performs
the scheduler loop and finally updates the output from its registered
maps (script lines 172-193). -/
theorem runInsert_nonempty (cfg : Config) (sp sampler_sp : SpaceTimeDataset)
    (out_id : String) (h : sortByStart sampler_sp.maps ≠ []) :
    runInsert cfg sp sampler_sp out_id =
      Event.insertSeries (freshOutput sp out_id) ::
        ((runLoop cfg sp out_id 0 (sortByStart sampler_sp.maps)).1 ++
          [Event.updateFromRegisteredMaps out_id]) := by
  simp [runInsert, h]

/-- Sorting the registered maps yields the empty list exactly when there
are none. -/
theorem sortByStart_eq_nil (l : List MapRow) : sortByStart l = [] ↔ l = [] := by
  constructor
  · intro h
    have hp := List.perm_insertionSort rowLE l
    rw [show List.insertionSort rowLE l = sortByStart l from rfl, h] at hp
    exact hp.symm.eq_nil
  · intro h
    rw [h]
    rfl

/-- The only series insertion `runInsert` ever performs is the fresh
output dataset. -/
theorem mem_runInsert_insertSeries (cfg : Config)
    (sp sampler_sp : SpaceTimeDataset) (out_id : String)
    (d : SpaceTimeDataset)
    (h : Event.insertSeries d ∈ runInsert cfg sp sampler_sp out_id) :
    d = freshOutput sp out_id := by
  simp only [runInsert] at h
  rcases List.mem_cons.mp h with h | h
  · exact Event.insertSeries.inj h
  · exfalso
    by_cases hr : sortByStart sampler_sp.maps = []
    · rw [if_pos hr] at h
      simp only [List.mem_singleton] at h
      exact Event.noConfusion h
    · rw [if_neg hr, List.mem_append] at h
      rcases h with h | h
      · have := mem_runLoop_isAggregate cfg sp out_id 0 _ _ h
        simp [isAggregate] at this
      · simp only [List.mem_singleton] at h
        exact Event.noConfusion h

/-- The only series insertion after the checks is the fresh output. -/
theorem mem_runChecked_insertSeries (cfg : Config)
    (cat : List SpaceTimeDataset) (sp sampler_sp : SpaceTimeDataset)
    (d : SpaceTimeDataset)
    (h : Event.insertSeries d ∈ runChecked cfg cat sp sampler_sp) :
    d = freshOutput sp (resolveId cfg.output cfg.mapset) := by
  simp only [runChecked] at h
  by_cases h1 : sampler_sp.temporal_type ≠ sp.temporal_type
  · rw [if_pos h1] at h
    simp only [List.mem_singleton] at h
    exact absurd h (by simp)
  · rw [if_neg h1] at h
    by_cases h2 : sampler_sp.map_time ≠ "interval"
    · rw [if_pos h2] at h
      simp only [List.mem_singleton] at h
      exact absurd h (by simp)
    · rw [if_neg h2] at h
      by_cases h3 : (findDataset cat (resolveId cfg.output cfg.mapset)
          DatasetKind.raster).isSome
      · rw [if_pos h3] at h
        by_cases h4 : cfg.overwrite
        · rw [if_pos h4] at h
          rcases List.mem_cons.mp h with h | h
          · exact absurd h (by simp)
          · exact mem_runInsert_insertSeries cfg sp sampler_sp _ d h
        · rw [if_neg h4] at h
          simp only [List.mem_singleton] at h
          exact absurd h (by simp)
      · rw [if_neg h3] at h
        exact mem_runInsert_insertSeries cfg sp sampler_sp _ d h

/-- Every series the trace of `main` inserts is a space-time RASTER
dataset, whatever the `type` option said. -/
theorem mem_runMain_insertSeries (cfg : Config)
    (cat : List SpaceTimeDataset) (d : SpaceTimeDataset)
    (h : Event.insertSeries d ∈ runMain cfg cat) :
    d.kind = DatasetKind.raster := by
  simp only [runMain] at h
  rcases hin : findDataset cat (resolveId cfg.input cfg.mapset)
      DatasetKind.raster with _ | sp
  · rw [hin] at h
    simp at h
  · rw [hin] at h
    rcases hsam : findDataset cat (resolveId cfg.sample cfg.mapset)
        (dataset_factory cfg.type) with _ | sampler_sp
    · rw [hsam] at h
      simp at h
    · rw [hsam] at h
      rcases List.mem_cons.mp h with h | h
      · exact absurd h (by simp)
      · rcases List.mem_cons.mp h with h | h
        · exact absurd h (by simp)
        · rw [mem_runChecked_insertSeries cfg cat sp sampler_sp d h]
          rfl

/-- An aggregation-request event is never a finalize event. -/
theorem isUpdate_eq_false_of_isAggregate (e : Event)
    (h : isAggregate e = true) : isUpdate e = false := by
  cases e <;> simp [isAggregate, isUpdate] at h ⊢

/-! ### Claims -/

/-- C4: the sampler rows handed to the scheduler loop are sorted in
ascending start-time order, and the loop gives the interval at 1-based
position `i` of that enumeration the sequence index `i` — the index is
dense, starts at 1, and advances for every interval (the final counter is
the full row count), including intervals whose `stepEvents` is empty. -/
theorem C4_ordered_dense_indexing :
    (∀ l : List MapRow, List.Sorted rowLE (sortByStart l)) ∧
    (∀ (cfg : Config) (sp : SpaceTimeDataset) (out_id : String)
       (rows : List MapRow),
       runLoop cfg sp out_id 0 rows =
         (((List.enumFrom 1 rows).map
             (fun p => stepEvents cfg sp out_id p.1 p.2)).flatten,
           rows.length)) := by
  constructor
  · intro l
    exact List.sorted_insertionSort rowLE l
  · intro cfg sp out_id rows
    simpa using runLoop_enumFrom cfg sp out_id 0 rows

/-- C5: an interval whose matched source-map set is empty submits no
aggregation request and registers nothing — its iteration contributes no
event at all — and the loop simply continues with the next interval at
the advanced counter; no error event is produced. -/
theorem C5_empty_match_skips (cfg : Config) (sp : SpaceTimeDataset)
    (out_id : String) (i c : Nat) (row : MapRow) (rest : List MapRow)
    (h : collect_map_names sp row.start_time row.end_time cfg.sampling = []) :
    stepEvents cfg sp out_id i row = [] ∧
    runLoop cfg sp out_id c (row :: rest) =
      runLoop cfg sp out_id (c + 1) rest := by
  have hstep : ∀ j, stepEvents cfg sp out_id j row = [] := by
    intro j
    simp [stepEvents, h]
  refine ⟨hstep i, ?_⟩
  simp [runLoop, hstep (c + 1)]

/-- Witness for C5 at the fixture: the interval [100,110) matches no map
of the one-map source dataset, so its iteration is a pure skip. -/
theorem C5_witness :
    stepEvents cfg0 srcSp "out@m" 1 rowFar = [] ∧
    runLoop cfg0 srcSp "out@m" 0 [rowFar] =
      runLoop cfg0 srcSp "out@m" 1 [] :=
  C5_empty_match_skips cfg0 srcSp "out@m" 1 0 rowFar [] (by decide)

/-- C6: the source map [10,20) against the interval [10,20) satisfies
equal, start, during, overlap and contain simultaneously, is returned by
the matcher under each of these relations, and in general a source map is
returned whenever ANY selected relation holds (logical OR across the
relation set). -/
theorem C6_relation_correctness :
    (satisfiesRelation "equal" 10 (some 20) 10 (some 20) = true ∧
     satisfiesRelation "start" 10 (some 20) 10 (some 20) = true ∧
     satisfiesRelation "during" 10 (some 20) 10 (some 20) = true ∧
     satisfiesRelation "overlap" 10 (some 20) 10 (some 20) = true ∧
     satisfiesRelation "contain" 10 (some 20) 10 (some 20) = true) ∧
    (∀ rel, rel ∈ ["equal", "start", "during", "overlap", "contain"] →
      srcMapA.id ∈ collect_map_names srcSp 10 (some 20) [rel]) ∧
    (∀ (sp : SpaceTimeDataset) (m : MapRow) (s : Int) (e : Option Int)
       (sampling : List String) (rel : String),
       m ∈ sp.maps → rel ∈ sampling →
       satisfiesRelation rel m.start_time m.end_time s e = true →
       m.id ∈ collect_map_names sp s e sampling) := by
  refine ⟨by decide, by decide, ?_⟩
  intro sp m s e sampling rel hm hrel hsat
  unfold collect_map_names
  apply List.mem_dedup.mpr
  refine List.mem_map.mpr ⟨m, ?_, rfl⟩
  apply (List.perm_insertionSort rowLE _).mem_iff.mpr
  apply List.mem_filter.mpr
  refine ⟨hm, ?_⟩
  unfold mapMatches
  exact List.any_eq_true.mpr ⟨rel, hrel, hsat⟩

/-- Witness for C6: the fixture map is returned when one of the two
selected relations (during) holds against [10,20). -/
theorem C6_witness :
    srcMapA.id ∈ collect_map_names srcSp 10 (some 20) ["during", "equal"] :=
  C6_relation_correctness.2.2 srcSp srcMapA 10 (some 20) ["during", "equal"]
    "during" (by decide) (by decide) (by decide)

/-- C7: after the scheduler loop completes, the counter it returns equals
the initial counter plus the number of sampler intervals — every interval
is counted, whether its iteration produced an aggregation request or was
skipped for an empty match. -/
theorem C7_total_interval_count (cfg : Config) (sp : SpaceTimeDataset)
    (out_id : String) (c : Nat) (rows : List MapRow) :
    (runLoop cfg sp out_id c rows).2 = c + rows.length := by
  rw [runLoop_enumFrom]

/-- C1 counterexample: a run whose sampler has zero registered maps does
fail with the empty-dataset error, but the output series has already been
inserted into the catalog strictly before that error is reported — the
trace contains the insertion in its prefix before the final fatal event. -/
theorem C1_counterexample :
    ∃ pre, runMain cfg0 catEmptySam =
        pre ++ [Event.fatal (emptyMsg "src@m")] ∧
      Event.insertSeries (freshOutput srcSp "out@m") ∈ pre := by
  refine ⟨[Event.selectDs "src@m" DatasetKind.raster,
    Event.selectDs "sam@m" DatasetKind.raster,
    Event.insertSeries (freshOutput srcSp "out@m")], ?_, ?_⟩
  · decide
  · decide

/-- C1 (amended): if the sampler dataset has zero registered maps, the run
fails with the empty-dataset error, but only AFTER the output series has
been inserted into the catalog: the trace is select, select, insert the
fresh output, then the fatal empty-dataset message. -/
theorem C1_empty_sampler_error_after_insert (cfg : Config)
    (cat : List SpaceTimeDataset) (sp sampler_sp : SpaceTimeDataset)
    (hin : findDataset cat (resolveId cfg.input cfg.mapset)
      DatasetKind.raster = some sp)
    (hsam : findDataset cat (resolveId cfg.sample cfg.mapset)
      (dataset_factory cfg.type) = some sampler_sp)
    (hte : sampler_sp.temporal_type = sp.temporal_type)
    (hmt : sampler_sp.map_time = "interval")
    (hout : findDataset cat (resolveId cfg.output cfg.mapset)
      DatasetKind.raster = none)
    (hmaps : sampler_sp.maps = []) :
    runMain cfg cat =
      [Event.selectDs (resolveId cfg.input cfg.mapset) DatasetKind.raster,
       Event.selectDs (resolveId cfg.sample cfg.mapset)
         (dataset_factory cfg.type),
       Event.insertSeries (freshOutput sp (resolveId cfg.output cfg.mapset)),
       Event.fatal (emptyMsg (resolveId cfg.input cfg.mapset))] := by
  rw [runMain_found cfg cat sp sampler_sp hin hsam,
    runChecked_free cfg cat sp sampler_sp hte hmt hout,
    runInsert_empty cfg sp sampler_sp _ hmaps]

/-- Witness for the amended C1 at the fixture catalog. -/
theorem C1_witness :
    runMain cfg0 catEmptySam =
      [Event.selectDs "src@m" DatasetKind.raster,
       Event.selectDs "sam@m" DatasetKind.raster,
       Event.insertSeries (freshOutput srcSp "out@m"),
       Event.fatal (emptyMsg "src@m")] :=
  C1_empty_sampler_error_after_insert cfg0 catEmptySam srcSp samEmptySp
    (by decide) (by decide) (by decide) (by decide) (by decide) (by decide)

/-- C2: when a dataset already occupies the output id, overwrite deletes
it and inserts a fresh empty output carrying the source series' temporal
type, semantic type, title and description, while without overwrite the
run aborts with the already-exists error before any aggregation work and
without touching the catalog further. -/
theorem C2_prepare_output (cfg : Config) (cat : List SpaceTimeDataset)
    (sp sampler_sp old : SpaceTimeDataset)
    (hin : findDataset cat (resolveId cfg.input cfg.mapset)
      DatasetKind.raster = some sp)
    (hsam : findDataset cat (resolveId cfg.sample cfg.mapset)
      (dataset_factory cfg.type) = some sampler_sp)
    (hte : sampler_sp.temporal_type = sp.temporal_type)
    (hmt : sampler_sp.map_time = "interval")
    (hold : findDataset cat (resolveId cfg.output cfg.mapset)
      DatasetKind.raster = some old) :
    (cfg.overwrite = true →
      ∃ d rest, runMain cfg cat =
        Event.selectDs (resolveId cfg.input cfg.mapset) DatasetKind.raster ::
          Event.selectDs (resolveId cfg.sample cfg.mapset)
            (dataset_factory cfg.type) ::
            Event.deleteSeries (resolveId cfg.output cfg.mapset) ::
              Event.insertSeries d :: rest ∧
        d.temporal_type = sp.temporal_type ∧
        d.semantic_type = sp.semantic_type ∧
        d.title = sp.title ∧
        d.description = sp.description ∧
        d.maps = []) ∧
    (cfg.overwrite = false →
      runMain cfg cat =
        [Event.selectDs (resolveId cfg.input cfg.mapset) DatasetKind.raster,
         Event.selectDs (resolveId cfg.sample cfg.mapset)
           (dataset_factory cfg.type),
         Event.fatal (alreadyMsg (resolveId cfg.output cfg.mapset))] ∧
      ∀ e ∈ runMain cfg cat, isAggregate e = false) := by
  constructor
  · intro hov
    rw [runMain_found cfg cat sp sampler_sp hin hsam,
      runChecked_overwrite cfg cat sp sampler_sp old hte hmt hold hov]
    simp only [runInsert]
    exact ⟨_, _, rfl, rfl, rfl, rfl, rfl, rfl⟩
  · intro hov
    have htr : runMain cfg cat =
        [Event.selectDs (resolveId cfg.input cfg.mapset) DatasetKind.raster,
         Event.selectDs (resolveId cfg.sample cfg.mapset)
           (dataset_factory cfg.type),
         Event.fatal (alreadyMsg (resolveId cfg.output cfg.mapset))] := by
      rw [runMain_found cfg cat sp sampler_sp hin hsam,
        runChecked_already cfg cat sp sampler_sp old hte hmt hold hov]
    refine ⟨htr, ?_⟩
    intro e he
    rw [htr] at he
    simp only [List.mem_cons, List.mem_singleton, List.not_mem_nil,
      or_false] at he
    rcases he with rfl | rfl | rfl <;> rfl

/-- Witness for C2 at the fixture catalog with an occupied output id and
overwrite off: the run aborts with the already-exists message. -/
theorem C2_witness :
    runMain cfg0 catWithOut =
      [Event.selectDs "src@m" DatasetKind.raster,
       Event.selectDs "sam@m" DatasetKind.raster,
       Event.fatal (alreadyMsg "out@m")] ∧
    ∀ e ∈ runMain cfg0 catWithOut, isAggregate e = false :=
  (C2_prepare_output cfg0 catWithOut srcSp samSp outOldSp
    (by decide) (by decide) (by decide) (by decide) (by decide)).2 (by decide)

/-- C3: once both datasets are selected, a temporal-type mismatch aborts
with the mismatch message, and a sampler whose map-time mode is not
interval-based aborts with the interval message; in either failure no
output series is ever inserted. -/
theorem C3_compatibility_validation (cfg : Config)
    (cat : List SpaceTimeDataset) (sp sampler_sp : SpaceTimeDataset)
    (hin : findDataset cat (resolveId cfg.input cfg.mapset)
      DatasetKind.raster = some sp)
    (hsam : findDataset cat (resolveId cfg.sample cfg.mapset)
      (dataset_factory cfg.type) = some sampler_sp) :
    (sampler_sp.temporal_type ≠ sp.temporal_type →
      runMain cfg cat =
        [Event.selectDs (resolveId cfg.input cfg.mapset) DatasetKind.raster,
         Event.selectDs (resolveId cfg.sample cfg.mapset)
           (dataset_factory cfg.type),
         Event.fatal mismatchMsg]) ∧
    (sampler_sp.temporal_type = sp.temporal_type →
      sampler_sp.map_time ≠ "interval" →
      runMain cfg cat =
        [Event.selectDs (resolveId cfg.input cfg.mapset) DatasetKind.raster,
         Event.selectDs (resolveId cfg.sample cfg.mapset)
           (dataset_factory cfg.type),
         Event.fatal intervalMsg]) ∧
    ((sampler_sp.temporal_type ≠ sp.temporal_type ∨
        sampler_sp.map_time ≠ "interval") →
      ∀ d, Event.insertSeries d ∉ runMain cfg cat) := by
  have hfound := runMain_found cfg cat sp sampler_sp hin hsam
  refine ⟨?_, ?_, ?_⟩
  · intro hne
    rw [hfound, runChecked_mismatch cfg cat sp sampler_sp hne]
  · intro hte hmt
    rw [hfound, runChecked_noninterval cfg cat sp sampler_sp hte hmt]
  · intro hcase d hmem
    rcases hcase with hne | hmt
    · rw [hfound, runChecked_mismatch cfg cat sp sampler_sp hne] at hmem
      simp at hmem
    · by_cases hte : sampler_sp.temporal_type = sp.temporal_type
      · rw [hfound,
          runChecked_noninterval cfg cat sp sampler_sp hte hmt] at hmem
        simp at hmem
      · rw [hfound, runChecked_mismatch cfg cat sp sampler_sp hte] at hmem
        simp at hmem

/-- Witness for C3 at the fixture catalog whose sampler is of relative
temporal type while the source is absolute. -/
theorem C3_witness :
    runMain cfg0 catMismatch =
      [Event.selectDs "src@m" DatasetKind.raster,
       Event.selectDs "sam@m" DatasetKind.raster,
       Event.fatal mismatchMsg] :=
  (C3_compatibility_validation cfg0 catMismatch srcSp samRelSp
    (by decide) (by decide)).1 (by decide)

/-- C8: every run that reaches the scheduler loop finalizes the output
series exactly once and only after the loop over all sampler intervals:
the trace contains exactly one extent-update event, that event is the very
last one of the run, and the loop itself never emits an update event. -/
theorem C8_finalize_once_after_loop (cfg : Config)
    (cat : List SpaceTimeDataset) (sp sampler_sp : SpaceTimeDataset)
    (hin : findDataset cat (resolveId cfg.input cfg.mapset)
      DatasetKind.raster = some sp)
    (hsam : findDataset cat (resolveId cfg.sample cfg.mapset)
      (dataset_factory cfg.type) = some sampler_sp)
    (hte : sampler_sp.temporal_type = sp.temporal_type)
    (hmt : sampler_sp.map_time = "interval")
    (hov : findDataset cat (resolveId cfg.output cfg.mapset)
        DatasetKind.raster = none ∨ cfg.overwrite = true)
    (hrows : sortByStart sampler_sp.maps ≠ []) :
    (runMain cfg cat).countP isUpdate = 1 ∧
    (runMain cfg cat).getLast? =
      some (Event.updateFromRegisteredMaps
        (resolveId cfg.output cfg.mapset)) ∧
    ∀ e ∈ (runLoop cfg sp (resolveId cfg.output cfg.mapset) 0
        (sortByStart sampler_sp.maps)).1, isUpdate e = false := by
  have hloopfalse : ∀ e ∈ (runLoop cfg sp (resolveId cfg.output cfg.mapset) 0
      (sortByStart sampler_sp.maps)).1, isUpdate e = false := by
    intro e he
    exact isUpdate_eq_false_of_isAggregate e
      (mem_runLoop_isAggregate cfg sp _ 0 _ e he)
  have hloop0 : ((runLoop cfg sp (resolveId cfg.output cfg.mapset) 0
      (sortByStart sampler_sp.maps)).1).countP isUpdate = 0 := by
    apply List.countP_eq_zero.mpr
    intro e he
    simp [hloopfalse e he]
  rcases hlook : findDataset cat (resolveId cfg.output cfg.mapset)
      DatasetKind.raster with _ | old
  · have htr : runMain cfg cat =
        (Event.selectDs (resolveId cfg.input cfg.mapset)
            DatasetKind.raster ::
          Event.selectDs (resolveId cfg.sample cfg.mapset)
            (dataset_factory cfg.type) ::
          Event.insertSeries
            (freshOutput sp (resolveId cfg.output cfg.mapset)) ::
          (runLoop cfg sp (resolveId cfg.output cfg.mapset) 0
            (sortByStart sampler_sp.maps)).1) ++
          [Event.updateFromRegisteredMaps
            (resolveId cfg.output cfg.mapset)] := by
      rw [runMain_found cfg cat sp sampler_sp hin hsam,
        runChecked_free cfg cat sp sampler_sp hte hmt hlook,
        runInsert_nonempty cfg sp sampler_sp _ hrows]
      simp
    refine ⟨?_, ?_, hloopfalse⟩
    · rw [htr]
      simp [List.countP_append, List.countP_cons, isUpdate, hloop0]
    · rw [htr]
      exact getLast_append_single _ _
  · have hovr : cfg.overwrite = true := by
      rcases hov with hnone | hovr
      · rw [hlook] at hnone
        cases hnone
      · exact hovr
    have htr : runMain cfg cat =
        (Event.selectDs (resolveId cfg.input cfg.mapset)
            DatasetKind.raster ::
          Event.selectDs (resolveId cfg.sample cfg.mapset)
            (dataset_factory cfg.type) ::
          Event.deleteSeries (resolveId cfg.output cfg.mapset) ::
          Event.insertSeries
            (freshOutput sp (resolveId cfg.output cfg.mapset)) ::
          (runLoop cfg sp (resolveId cfg.output cfg.mapset) 0
            (sortByStart sampler_sp.maps)).1) ++
          [Event.updateFromRegisteredMaps
            (resolveId cfg.output cfg.mapset)] := by
      rw [runMain_found cfg cat sp sampler_sp hin hsam,
        runChecked_overwrite cfg cat sp sampler_sp old hte hmt hlook hovr,
        runInsert_nonempty cfg sp sampler_sp _ hrows]
      simp
    refine ⟨?_, ?_, hloopfalse⟩
    · rw [htr]
      simp [List.countP_append, List.countP_cons, isUpdate, hloop0]
    · rw [htr]
      exact getLast_append_single _ _

/-- Witness for C8 at the fixture run with one sampler interval. -/
theorem C8_witness :
    (runMain cfg0 catMain).countP isUpdate = 1 ∧
    (runMain cfg0 catMain).getLast? =
      some (Event.updateFromRegisteredMaps "out@m") ∧
    ∀ e ∈ (runLoop cfg0 srcSp "out@m" 0 (sortByStart samSp.maps)).1,
      isUpdate e = false :=
  C8_finalize_once_after_loop cfg0 catMain srcSp samSp (by decide)
    (by decide) (by decide) (by decide) (Or.inl (by decide)) (by decide)

/-- C9: the `type` option only shapes the sampler lookup — the input is
always selected as a space-time raster dataset, every series the run
inserts is a raster dataset, and `dataset_factory` maps the three option
values to the three sampler kinds. -/
theorem C9_type_shapes_only_sampler (cfg : Config)
    (cat : List SpaceTimeDataset) (sp sampler_sp : SpaceTimeDataset)
    (hin : findDataset cat (resolveId cfg.input cfg.mapset)
      DatasetKind.raster = some sp)
    (hsam : findDataset cat (resolveId cfg.sample cfg.mapset)
      (dataset_factory cfg.type) = some sampler_sp) :
    (∃ rest, runMain cfg cat =
      Event.selectDs (resolveId cfg.input cfg.mapset) DatasetKind.raster ::
        Event.selectDs (resolveId cfg.sample cfg.mapset)
          (dataset_factory cfg.type) :: rest) ∧
    (∀ d, Event.insertSeries d ∈ runMain cfg cat →
      d.kind = DatasetKind.raster) ∧
    dataset_factory "strds" = DatasetKind.raster ∧
    dataset_factory "str3ds" = DatasetKind.raster3d ∧
    dataset_factory "stvds" = DatasetKind.vector :=
  ⟨⟨runChecked cfg cat sp sampler_sp,
      runMain_found cfg cat sp sampler_sp hin hsam⟩,
    fun d h => mem_runMain_insertSeries cfg cat d h,
    by decide, by decide, by decide⟩

/-- Witness for C9 at the fixture run. -/
theorem C9_witness :
    (∃ rest, runMain cfg0 catMain =
      Event.selectDs "src@m" DatasetKind.raster ::
        Event.selectDs "sam@m" (dataset_factory "strds") :: rest) ∧
    (∀ d, Event.insertSeries d ∈ runMain cfg0 catMain →
      d.kind = DatasetKind.raster) ∧
    dataset_factory "strds" = DatasetKind.raster ∧
    dataset_factory "str3ds" = DatasetKind.raster3d ∧
    dataset_factory "stvds" = DatasetKind.vector :=
  C9_type_shapes_only_sampler cfg0 catMain srcSp samSp (by decide) (by decide)

/-- C10: both the sampler-not-found fatal message and the empty-sampler
fatal message are formatted with the INPUT dataset's qualified id (the
script reuses the variable `id` at lines 137 and 178), not the sampler's
qualified id. -/
theorem C10_error_messages_use_input_id :
    (∀ (cfg : Config) (cat : List SpaceTimeDataset) (sp : SpaceTimeDataset),
      findDataset cat (resolveId cfg.input cfg.mapset)
        DatasetKind.raster = some sp →
      findDataset cat (resolveId cfg.sample cfg.mapset)
        (dataset_factory cfg.type) = none →
      runMain cfg cat =
        [Event.selectDs (resolveId cfg.input cfg.mapset) DatasetKind.raster,
         Event.fatal (notFoundMsg (resolveId cfg.input cfg.mapset))]) ∧
    (∀ (cfg : Config) (cat : List SpaceTimeDataset)
       (sp sampler_sp : SpaceTimeDataset),
      findDataset cat (resolveId cfg.input cfg.mapset)
        DatasetKind.raster = some sp →
      findDataset cat (resolveId cfg.sample cfg.mapset)
        (dataset_factory cfg.type) = some sampler_sp →
      sampler_sp.temporal_type = sp.temporal_type →
      sampler_sp.map_time = "interval" →
      findDataset cat (resolveId cfg.output cfg.mapset)
        DatasetKind.raster = none →
      sampler_sp.maps = [] →
      (runMain cfg cat).getLast? =
        some (Event.fatal (emptyMsg (resolveId cfg.input cfg.mapset)))) := by
  constructor
  · intro cfg cat sp hin hsam
    exact runMain_no_sampler cfg cat sp hin hsam
  · intro cfg cat sp sampler_sp hin hsam hte hmt hout hmaps
    rw [runMain_found cfg cat sp sampler_sp hin hsam,
      runChecked_free cfg cat sp sampler_sp hte hmt hout,
      runInsert_empty cfg sp sampler_sp _ hmaps]
    exact getLast_append_single
      [Event.selectDs (resolveId cfg.input cfg.mapset) DatasetKind.raster,
       Event.selectDs (resolveId cfg.sample cfg.mapset)
         (dataset_factory cfg.type),
       Event.insertSeries (freshOutput sp (resolveId cfg.output cfg.mapset))]
      (Event.fatal (emptyMsg (resolveId cfg.input cfg.mapset)))

/-- Witness for C10 at the fixture catalog without the sampler dataset:
the message names the input id `src@m`. -/
theorem C10_witness :
    runMain cfg0 catNoSam =
      [Event.selectDs "src@m" DatasetKind.raster,
       Event.fatal (notFoundMsg "src@m")] :=
  C10_error_messages_use_input_id.1 cfg0 catNoSam srcSp (by decide) (by decide)
